import Mathlib

/-!
Verification of the Lasair broker query manager
(aas2rto/query_managers/lasair.py) against its natural-language
specification.  Python functions are shallowly embedded as Lean
definitions: dictionaries become association lists, pandas DataFrames
become lists of row structures together with explicit column-presence
information, raised exceptions become the error case of Except, and the
remote Lasair client is abstracted as an oracle function supplied to the
embedded query loop.
-/

namespace Aas2rto

/-! ### Alerts as key-value records (target_from_lasair_alert) -/

/-- An alert is a JSON-like mapping; the coordinate-bearing fields are
modelled as an association list from field name to an optional rational
value (a stored none models a JSON null under that key). -/
abbrev AlertFields := List (String × Option ℚ)

/-- Python dict.get(key, None): the stored value, or none when the key is
absent; an absent key and a stored null are indistinguishable to the
caller, exactly as in alert.get(racol, None) at lasair.py lines 107-108. -/
def alertGet (alert : AlertFields) (key : String) : Option ℚ :=
  (alert.lookup key).bind id

/-- LasairQueryManager.default_coordinate_guesses (lasair.py line 163). -/
def default_coordinate_guesses : List (String × String) :=
  [("ramean", "decmean"), ("ra", "dec"), ("RA", "Dec")]

/-- The coordinate-guessing loop of target_from_lasair_alert (lasair.py
lines 106-110): each iteration overwrites ra and dec with the current
pair of field values and breaks at the first pair where both are
non-null; when no pair qualifies, the values assigned by the last
iteration remain. -/
def guessCoordsLoop (alert : AlertFields) :
    List (String × String) → Option ℚ × Option ℚ → Option ℚ × Option ℚ
  | [], acc => acc
  | (racol, deccol) :: rest, _ =>
    let ra := alertGet alert racol
    let dec := alertGet alert deccol
    if ra.isSome && dec.isSome then (ra, dec)
    else guessCoordsLoop alert rest (ra, dec)

/-- The (ra, dec) pair with which target_from_lasair_alert constructs the
new Target (lasair.py line 119). -/
def guessCoordinates (alert : AlertFields) : Option ℚ × Option ℚ :=
  guessCoordsLoop alert default_coordinate_guesses (none, none)

/-! ### Processed lightcurves (process_lasair_lightcurve) -/

/-- A raw candidate row of a Lasair lightcurve response: candid is the
optional candidate identifier (absent or null on non-detections), jd the
acquisition time.  Other columns do not bear on the claims. -/
structure Candidate where
  candid : Option Int
  jd : ℚ
deriving DecidableEq, Repr

/-- Python truthiness of row.get("candid") as used at lasair.py lines
38-39: a missing key, a null and the integer 0 are all falsy. -/
def candidTruthy : Option Int → Bool
  | none => false
  | some v => v != 0

/-- A row of the processed lightcurve DataFrame (the columns the claims
are about). -/
structure PRow where
  candid : Int
  candid_str : String
  tag : String
  jd : ℚ
deriving DecidableEq, Repr

/-- Insert a row into a list so that jd values end up ascending. -/
def insertRowByJd (r : PRow) : List PRow → List PRow
  | [] => [r]
  | x :: xs => if r.jd < x.jd then r :: x :: xs else x :: insertRowByJd r xs

/-- Reordering of the rows performed by sort_values("jd") at lasair.py
line 63; every claim depends only on the multiset of rows, which any
sorting preserves (sortRowsByJd_perm below). -/
def sortRowsByJd (l : List PRow) : List PRow :=
  l.foldr insertRowByJd []

/-- The processed row built from a detection at lasair.py lines 42-44:
it keeps its own candid and is tagged "valid". -/
def detRow (r : Candidate) : PRow :=
  { candid := r.candid.getD 0, candid_str := toString (r.candid.getD 0),
    tag := "valid", jd := r.jd }

/-- The processed row built from a non-detection at lasair.py lines
46-50: it receives the sentinel candid -1 and is tagged "upperlim". -/
def nonDetRow (r : Candidate) : PRow :=
  { candid := -1, candid_str := "-1", tag := "upperlim", jd := r.jd }

/-- process_lasair_lightcurve (lasair.py lines 34-64): split the
candidates into detections (truthy candid) and non-detections, tag each
detection "valid" keeping its own candid, give every non-detection the
sentinel candid -1 and the tag "upperlim", concatenate detections before
non-detections and sort by jd.  The objectId/mjd columns do not bear on
the claims and are omitted. -/
def process_lasair_lightcurve (candidates : List Candidate) : List PRow :=
  let det := candidates.filter (fun r => candidTruthy r.candid)
  let non_det := candidates.filter (fun r => !(candidTruthy r.candid))
  let detRows := det.map detRow
  let nonDetRows := non_det.map nonDetRow
  sortRowsByJd (detRows ++ nonDetRows)

lemma insertRowByJd_perm (r : PRow) (l : List PRow) :
    (insertRowByJd r l).Perm (r :: l) := by
  induction l with
  | nil => exact List.Perm.refl _
  | cons x xs ih =>
    simp only [insertRowByJd]
    split
    · exact List.Perm.refl _
    · exact (ih.cons x).trans (List.Perm.swap r x xs)

lemma sortRowsByJd_perm (l : List PRow) : (sortRowsByJd l).Perm l := by
  induction l with
  | nil => exact List.Perm.refl _
  | cons x xs ih =>
    exact (insertRowByJd_perm x (sortRowsByJd xs)).trans (ih.cons x)

/-- C7 counterexample: an alert carrying only a non-null RA field (Dec
absent) yields the mixed pair (some value, null), contradicting the
claim that one coordinate is never non-null while the other is null. -/
theorem C7_counterexample :
    (guessCoordinates [("RA", some 1)]).1 = some 1 ∧
    (guessCoordinates [("RA", some 1)]).2 = none := by
  decide

/-- C7 (amended): the derived coordinates are those of the first pair in
the priority order [(ramean, decmean), (ra, dec), (RA, Dec)] whose two
fields are both present and non-null; when no pair qualifies the result
is whatever the alert holds under the last pair (RA, Dec), which can
leave one coordinate non-null and the other null. -/
theorem C7_coordinate_fallback (alert : AlertFields) :
    guessCoordinates alert =
      (if (alertGet alert "ramean").isSome && (alertGet alert "decmean").isSome then
        (alertGet alert "ramean", alertGet alert "decmean")
      else if (alertGet alert "ra").isSome && (alertGet alert "dec").isSome then
        (alertGet alert "ra", alertGet alert "dec")
      else (alertGet alert "RA", alertGet alert "Dec")) := by
  simp only [guessCoordinates, default_coordinate_guesses, guessCoordsLoop, ite_self]

/-- C9 counterexample: a lightcurve built from two non-detections carries
the sentinel candid -1 on both rows, so candidate identifiers are not
unique within one processed lightcurve. -/
theorem C9_counterexample :
    (process_lasair_lightcurve
        [{ candid := none, jd := 1 }, { candid := none, jd := 2 }]).map
      (fun r => r.candid) = [-1, -1] ∧
    ¬ ((process_lasair_lightcurve
        [{ candid := none, jd := 1 }, { candid := none, jd := 2 }]).map
      (fun r => r.candid)).Nodup := by
  decide

/-- C9 (amended): within one processed lightcurve, the rows tagged valid
carry pairwise-distinct candid values whenever the broker-supplied
detection candids are pairwise distinct, while every row tagged upperlim
carries the shared sentinel candid -1. -/
theorem C9_candid_uniqueness (candidates : List Candidate)
    (h : ((candidates.filter (fun r => candidTruthy r.candid)).map
      (fun r => r.candid.getD 0)).Nodup) :
    (((process_lasair_lightcurve candidates).filter
        (fun r => r.tag == "valid")).map (fun r => r.candid)).Nodup ∧
    ∀ r ∈ process_lasair_lightcurve candidates,
      r.tag = "upperlim" → r.candid = -1 := by
  unfold process_lasair_lightcurve
  simp only
  set detRows := (candidates.filter (fun r => candidTruthy r.candid)).map detRow
    with hdetRows
  set nonDetRows := (candidates.filter (fun r => !(candidTruthy r.candid))).map
    nonDetRow with hnonDetRows
  have hperm : (sortRowsByJd (detRows ++ nonDetRows)).Perm (detRows ++ nonDetRows) :=
    sortRowsByJd_perm _
  constructor
  · have hfilter :
        ((detRows ++ nonDetRows).filter (fun r => r.tag == "valid")) = detRows := by
      rw [List.filter_append]
      have h1 : detRows.filter (fun r => r.tag == "valid") = detRows := by
        apply List.filter_eq_self.mpr
        intro r hr
        rw [hdetRows] at hr
        obtain ⟨c, _, rfl⟩ := List.mem_map.mp hr
        rfl
      have h2 : nonDetRows.filter (fun r => r.tag == "valid") = [] := by
        apply List.filter_eq_nil_iff.mpr
        intro r hr
        rw [hnonDetRows] at hr
        obtain ⟨c, _, rfl⟩ := List.mem_map.mp hr
        simp [nonDetRow]
      rw [h1, h2, List.append_nil]
    have hmapped :
        (((sortRowsByJd (detRows ++ nonDetRows)).filter
          (fun r => r.tag == "valid")).map (fun r => r.candid)).Perm
          (detRows.map (fun r => r.candid)) := by
      have := (hperm.filter (fun r => r.tag == "valid")).map (fun r => r.candid)
      rwa [hfilter] at this
    have hnodup : (detRows.map (fun r => r.candid)).Nodup := by
      rw [hdetRows, List.map_map]
      exact h
    exact (hmapped.nodup_iff).mpr hnodup
  · intro r hr htag
    have hr2 : r ∈ detRows ++ nonDetRows := hperm.mem_iff.mp hr
    rcases List.mem_append.mp hr2 with hl | hl
    · rw [hdetRows] at hl
      obtain ⟨c, _, rfl⟩ := List.mem_map.mp hl
      exact absurd htag (by simp [detRow])
    · rw [hnonDetRows] at hl
      obtain ⟨c, _, rfl⟩ := List.mem_map.mp hl
      rfl

/-- C9 witness: a concrete lightcurve with one detection and one
non-detection satisfies the hypothesis and the conclusion of the amended
uniqueness theorem. -/
theorem C9_candid_uniqueness_witness :
    ((([{ candid := some 5, jd := 1 }, { candid := none, jd := 2 }] :
        List Candidate).filter (fun r => candidTruthy r.candid)).map
      (fun r => r.candid.getD 0)).Nodup ∧
    ((((process_lasair_lightcurve
          [{ candid := some 5, jd := 1 }, { candid := none, jd := 2 }]).filter
        (fun r => r.tag == "valid")).map (fun r => r.candid)).Nodup ∧
      ∀ r ∈ process_lasair_lightcurve
          [{ candid := some 5, jd := 1 }, { candid := none, jd := 2 }],
        r.tag = "upperlim" → r.candid = -1) :=
  ⟨by decide, C9_candid_uniqueness _ (by decide)⟩

/-! ### Chunked bulk queries (perform_lightcurve_queries) -/

/-- Modelled from the spec: utils.chunk_list is not under src/; section
4.5 of the spec says the id list is partitioned into ordered fixed-size
chunks.  The recursion is driven by a fuel argument equal to the list
length, which suffices because every step consumes at least one element;
the chunk size is clamped to at least one element per chunk. -/
def chunkGo (chunk_size : Nat) : Nat → List String → List (List String)
  | _, [] => []
  | 0, l => [l]
  | fuel + 1, x :: xs =>
    ((x :: xs).take (max chunk_size 1)) ::
      chunkGo chunk_size fuel ((x :: xs).drop (max chunk_size 1))

/-- Modelled from the spec: partition of the objectId list into ordered
fixed-size chunks (utils.chunk_list, called at lasair.py line 330). -/
def chunk_list (l : List String) (chunk_size : Nat) : List (List String) :=
  chunkGo chunk_size l.length l

lemma chunkGo_flatten (chunk_size : Nat) :
    ∀ (fuel : Nat) (l : List String), (chunkGo chunk_size fuel l).flatten = l := by
  intro fuel
  induction fuel with
  | zero =>
    intro l
    cases l with
    | nil => rfl
    | cons x xs => simp [chunkGo]
  | succ n ih =>
    intro l
    cases l with
    | nil => rfl
    | cons x xs =>
      simp only [chunkGo, List.flatten_cons, ih, List.take_append_drop]

lemma chunk_list_flatten (l : List String) (chunk_size : Nat) :
    (chunk_list l chunk_size).flatten = l :=
  chunkGo_flatten chunk_size l.length l

/-- One pass of the chunked query loop of perform_lightcurve_queries
(lasair.py lines 329-353), instrumented for verification.  The first two
components are the success and failed lists built by the source; the
third lists the chunks the loop never reached because the failure check
at line 332 broke out first, and the fourth lists the chunks for which a
bulk remote request was actually issued (the client.lightcurves call at
line 338).  The remote client is abstracted as resp, mapping a requested
chunk to either a raised exception (error) or the list of objectId
values of the returned lightcurves; success collects exactly those
returned objectId values (line 349 and 353).  The per-item csv
persistence at line 352 does not affect these lists and is omitted. -/
def queryLoop (resp : List String → Except Unit (List String)) (maxFailed : Nat) :
    List (List String) → List String → List String →
      List String × List String × List (List String) × List (List String)
  | [], success, failed => (success, failed, [], [])
  | chunk :: rest, success, failed =>
    if failed.length > maxFailed then (success, failed, chunk :: rest, [])
    else
      match resp chunk with
      | .error _ =>
        let r := queryLoop resp maxFailed rest success (failed ++ chunk)
        (r.1, r.2.1, r.2.2.1, chunk :: r.2.2.2)
      | .ok ids =>
        let r := queryLoop resp maxFailed rest (success ++ ids) failed
        (r.1, r.2.1, r.2.2.1, chunk :: r.2.2.2)

/-- perform_lightcurve_queries (lasair.py lines 314-359): the call raises
ValueError when client_token is None (lines 319-321); otherwise it runs
the chunked query loop over the chunked objectId list, starting from
empty success and failed lists, and returns the pair (success, failed). -/
def perform_lightcurve_queries (client_token : Option String)
    (objectId_list : List String) (chunk_size maxFailed : Nat)
    (resp : List String → Except Unit (List String)) :
    Except Unit (List String × List String) :=
  match client_token with
  | none => .error ()
  | some _ =>
    let r := queryLoop resp maxFailed (chunk_list objectId_list chunk_size) [] []
    .ok (r.1, r.2.1)

/-- Bookkeeping invariant of the chunked query loop: when the pending
chunks hold pairwise-distinct ids disjoint from the accumulators, and
every successful response only mentions ids of its own chunk, the final
success and failed lists only grow by pending ids, stay disjoint, and
stay disjoint from the ids of the unattempted chunks. -/
lemma queryLoop_invariant (resp : List String → Except Unit (List String))
    (maxFailed : Nat)
    (hresp : ∀ c out, resp c = Except.ok out → ∀ x ∈ out, x ∈ c) :
    ∀ (chunks : List (List String)) (succ fail : List String),
      (chunks.flatten).Nodup →
      (∀ x ∈ chunks.flatten, x ∉ succ) →
      (∀ x ∈ chunks.flatten, x ∉ fail) →
      (∀ x ∈ succ, x ∉ fail) →
      (∀ x ∈ (queryLoop resp maxFailed chunks succ fail).1,
          x ∈ succ ∨ x ∈ chunks.flatten) ∧
      (∀ x ∈ (queryLoop resp maxFailed chunks succ fail).2.1,
          x ∈ fail ∨ x ∈ chunks.flatten) ∧
      (∀ x ∈ (queryLoop resp maxFailed chunks succ fail).1,
          x ∉ (queryLoop resp maxFailed chunks succ fail).2.1) ∧
      (∀ x ∈ ((queryLoop resp maxFailed chunks succ fail).2.2.1).flatten,
          x ∉ (queryLoop resp maxFailed chunks succ fail).1 ∧
          x ∉ (queryLoop resp maxFailed chunks succ fail).2.1) := by
  intro chunks
  induction chunks with
  | nil =>
    intro succ fail _ _ _ h3
    refine ⟨fun x hx => Or.inl hx, fun x hx => Or.inl hx, h3, ?_⟩
    intro x hx
    simp [queryLoop] at hx
  | cons c rest ih =>
    intro succ fail h0 h1 h2 h3
    rw [List.flatten_cons] at h0 h1 h2
    have hcnodup := (List.nodup_append.mp h0).1
    have hrestnodup := (List.nodup_append.mp h0).2.1
    have hdisj : ∀ x ∈ c, x ∉ rest.flatten := (List.nodup_append.mp h0).2.2
    by_cases hbreak : fail.length > maxFailed
    · have heq : queryLoop resp maxFailed (c :: rest) succ fail =
          (succ, fail, c :: rest, []) := by
        simp [queryLoop, hbreak]
      rw [heq]
      refine ⟨fun x hx => Or.inl hx, fun x hx => Or.inl hx, h3, ?_⟩
      intro x hx
      rw [List.flatten_cons] at hx
      exact ⟨h1 x hx, h2 x hx⟩
    · rcases hr : resp c with e | out
      · -- chunk-level exception: every id of this chunk is added to failed
        have heq : queryLoop resp maxFailed (c :: rest) succ fail =
            (let r := queryLoop resp maxFailed rest succ (fail ++ c)
             (r.1, r.2.1, r.2.2.1, c :: r.2.2.2)) := by
          simp [queryLoop, hbreak, hr]
        rw [heq]
        have h1' : ∀ x ∈ rest.flatten, x ∉ succ := by
          intro x hx
          exact h1 x (List.mem_append.mpr (Or.inr hx))
        have h2' : ∀ x ∈ rest.flatten, x ∉ fail ++ c := by
          intro x hx hmem
          rcases List.mem_append.mp hmem with hf | hc
          · exact h2 x (List.mem_append.mpr (Or.inr hx)) hf
          · exact hdisj x hc hx
        have h3' : ∀ x ∈ succ, x ∉ fail ++ c := by
          intro x hx hmem
          rcases List.mem_append.mp hmem with hf | hc
          · exact h3 x hx hf
          · exact h1 x (List.mem_append.mpr (Or.inl hc)) hx
        obtain ⟨i1, i2, i3, i4⟩ := ih succ (fail ++ c) hrestnodup h1' h2' h3'
        refine ⟨?_, ?_, i3, i4⟩
        · intro x hx
          rcases i1 x hx with hs | hj
          · exact Or.inl hs
          · exact Or.inr (List.mem_append.mpr (Or.inr hj))
        · intro x hx
          rcases i2 x hx with hf | hj
          · rcases List.mem_append.mp hf with hf2 | hc
            · exact Or.inl hf2
            · exact Or.inr (List.mem_append.mpr (Or.inl hc))
          · exact Or.inr (List.mem_append.mpr (Or.inr hj))
      · -- successful chunk: the returned ids are appended to success
        have hout : ∀ x ∈ out, x ∈ c := hresp c out hr
        have heq : queryLoop resp maxFailed (c :: rest) succ fail =
            (let r := queryLoop resp maxFailed rest (succ ++ out) fail
             (r.1, r.2.1, r.2.2.1, c :: r.2.2.2)) := by
          simp [queryLoop, hbreak, hr]
        rw [heq]
        have h1' : ∀ x ∈ rest.flatten, x ∉ succ ++ out := by
          intro x hx hmem
          rcases List.mem_append.mp hmem with hs | ho
          · exact h1 x (List.mem_append.mpr (Or.inr hx)) hs
          · exact hdisj x (hout x ho) hx
        have h2' : ∀ x ∈ rest.flatten, x ∉ fail := by
          intro x hx
          exact h2 x (List.mem_append.mpr (Or.inr hx))
        have h3' : ∀ x ∈ succ ++ out, x ∉ fail := by
          intro x hx
          rcases List.mem_append.mp hx with hs | ho
          · exact h3 x hs
          · exact h2 x (List.mem_append.mpr (Or.inl (hout x ho)))
        obtain ⟨i1, i2, i3, i4⟩ := ih (succ ++ out) fail hrestnodup h1' h2' h3'
        refine ⟨?_, ?_, i3, i4⟩
        · intro x hx
          rcases i1 x hx with hs | hj
          · rcases List.mem_append.mp hs with hs2 | ho
            · exact Or.inl hs2
            · exact Or.inr (List.mem_append.mpr (Or.inl (hout x ho)))
          · exact Or.inr (List.mem_append.mpr (Or.inr hj))
        · intro x hx
          rcases i2 x hx with hf | hj
          · exact Or.inl hf
          · exact Or.inr (List.mem_append.mpr (Or.inr hj))

/-- Failure bookkeeping of the chunked query loop: the failed list only
grows, and every issued chunk whose remote call raised has all of its
ids in the final failed list. -/
lemma queryLoop_failed_accum (resp : List String → Except Unit (List String))
    (maxFailed : Nat) :
    ∀ (chunks : List (List String)) (succ fail : List String),
      (∀ x ∈ fail, x ∈ (queryLoop resp maxFailed chunks succ fail).2.1) ∧
      (∀ c ∈ (queryLoop resp maxFailed chunks succ fail).2.2.2,
        (∃ e, resp c = Except.error e) → ∀ x ∈ c,
          x ∈ (queryLoop resp maxFailed chunks succ fail).2.1) := by
  intro chunks
  induction chunks with
  | nil =>
    intro succ fail
    refine ⟨fun x hx => hx, ?_⟩
    intro c hc
    simp [queryLoop] at hc
  | cons c rest ih =>
    intro succ fail
    by_cases hbreak : fail.length > maxFailed
    · have heq : queryLoop resp maxFailed (c :: rest) succ fail =
          (succ, fail, c :: rest, []) := by
        simp [queryLoop, hbreak]
      rw [heq]
      refine ⟨fun x hx => hx, ?_⟩
      intro c2 hc2
      simp at hc2
    · rcases hr : resp c with e | out
      · have heq : queryLoop resp maxFailed (c :: rest) succ fail =
            (let r := queryLoop resp maxFailed rest succ (fail ++ c)
             (r.1, r.2.1, r.2.2.1, c :: r.2.2.2)) := by
          simp [queryLoop, hbreak, hr]
        rw [heq]
        refine ⟨?_, ?_⟩
        · intro x hx
          exact (ih succ (fail ++ c)).1 x (List.mem_append.mpr (Or.inl hx))
        · intro c2 hc2 _ x hx
          rcases List.mem_cons.mp hc2 with rfl | hc2r
          · exact (ih succ (fail ++ c2)).1 x (List.mem_append.mpr (Or.inr hx))
          · rcases hc2 with _ | _
            · exact (ih succ (fail ++ c)).1 x (List.mem_append.mpr (Or.inr hx))
            · rename_i hmem
              exact (ih succ (fail ++ c)).2 c2 hc2r (by assumption) x hx
      · have heq : queryLoop resp maxFailed (c :: rest) succ fail =
            (let r := queryLoop resp maxFailed rest (succ ++ out) fail
             (r.1, r.2.1, r.2.2.1, c :: r.2.2.2)) := by
          simp [queryLoop, hbreak, hr]
        rw [heq]
        refine ⟨fun x hx => (ih (succ ++ out) fail).1 x hx, ?_⟩
        intro c2 hc2 hec2 x hx
        rcases List.mem_cons.mp hc2 with rfl | hc2r
        · obtain ⟨e, he⟩ := hec2
          rw [hr] at he
          exact absurd he (by simp)
        · exact (ih (succ ++ out) fail).2 c2 hc2r hec2 x hx

/-- C3 counterexample: the success list collects the objectId values of
the returned lightcurves (lasair.py line 349), so a remote response
carrying an id that was never requested places that foreign id in the
succeeded list, contradicting the claim that no id outside the requested
list appears in either output list. -/
theorem C3_counterexample :
    perform_lightcurve_queries (some "tok") ["ZTF1"] 25 10
        (fun _ => Except.ok ["ZTF99"]) = Except.ok (["ZTF99"], []) ∧
    ("ZTF99" : String) ∉ (["ZTF1"] : List String) := by
  exact ⟨rfl, by decide⟩

/-- C3 (amended): whenever the requested ids are pairwise distinct and
every successful bulk response only mentions ids of the chunk it was
asked for, the call returns a partition in which succeeded and failed
are disjoint, both are drawn from the requested list, and every
requested id is in at most one of them (ids of unattempted chunks are in
neither, making the third class). -/
theorem C3_partition (tok : String) (ids : List String) (cs maxF : Nat)
    (resp : List String → Except Unit (List String))
    (hN : ids.Nodup)
    (hresp : ∀ c out, resp c = Except.ok out → ∀ x ∈ out, x ∈ c) :
    ∃ s f, perform_lightcurve_queries (some tok) ids cs maxF resp =
        Except.ok (s, f) ∧
      (∀ x ∈ s, x ∈ ids) ∧ (∀ x ∈ f, x ∈ ids) ∧ (∀ x ∈ s, x ∉ f) := by
  have hflat := chunk_list_flatten ids cs
  have inv := queryLoop_invariant resp maxF hresp (chunk_list ids cs) [] []
    (by rw [hflat]; exact hN)
    (fun x _ => List.not_mem_nil x)
    (fun x _ => List.not_mem_nil x)
    (fun x hx => absurd hx (List.not_mem_nil x))
  refine ⟨_, _, rfl, ?_, ?_, inv.2.2.1⟩
  · intro x hx
    rcases inv.1 x hx with h | h
    · exact absurd h (List.not_mem_nil x)
    · rwa [hflat] at h
  · intro x hx
    rcases inv.2.1 x hx with h | h
    · exact absurd h (List.not_mem_nil x)
    · rwa [hflat] at h

/-- C3 witness: two distinct ids queried in chunks of one against an
echoing remote satisfy the hypotheses, and the partition conclusion
holds there. -/
theorem C3_partition_witness :
    (["ZTFa", "ZTFb"] : List String).Nodup ∧
    (∃ s f, perform_lightcurve_queries (some "tok") ["ZTFa", "ZTFb"] 1 5
          (fun c => Except.ok c) = Except.ok (s, f) ∧
        (∀ x ∈ s, x ∈ (["ZTFa", "ZTFb"] : List String)) ∧
        (∀ x ∈ f, x ∈ (["ZTFa", "ZTFb"] : List String)) ∧
        (∀ x ∈ s, x ∉ f)) :=
  ⟨by decide,
    C3_partition "tok" ["ZTFa", "ZTFb"] 1 5 (fun c => Except.ok c) (by decide)
      (by intro c out h x hx; injection h with h2; exact h2 ▸ hx)⟩

/-- C4 counterexample: the requested id list may contain duplicates (the
orchestrator passes one objectId per received alert, line 455), and then
an id of an unattempted chunk can already sit in the failed list from an
earlier failed chunk: with ids [ZTF1, ZTF1], chunks of one and failure
budget zero, the first chunk fails, the breaker stops before the second
chunk, and ZTF1 is both the id of an unattempted chunk and a member of
the failed list, contradicting the claim that unattempted ids appear in
neither result list. -/
theorem C4_counterexample :
    ("ZTF1" : String) ∈
      ((queryLoop (fun _ => Except.error ()) 0 (chunk_list ["ZTF1", "ZTF1"] 1)
        [] []).2.2.1).flatten ∧
    ("ZTF1" : String) ∈
      (queryLoop (fun _ => Except.error ()) 0 (chunk_list ["ZTF1", "ZTF1"] 1)
        [] []).2.1 := by
  decide

/-- C4 (amended): once strictly more than maxFailed ids have been added
to the failed list, the loop issues no further bulk requests (the issued
list of any continuation state with an over-budget failed list is empty
and all its chunks are returned unattempted) — this holds
unconditionally; moreover, provided the requested ids are pairwise
distinct and successful responses only mention ids of their own chunk,
the ids of the unattempted chunks appear in neither the succeeded nor
the failed list. -/
theorem C4_circuit_breaker (resp : List String → Except Unit (List String))
    (maxFailed : Nat) (ids : List String) (cs : Nat)
    (hN : ids.Nodup)
    (hresp : ∀ c out, resp c = Except.ok out → ∀ x ∈ out, x ∈ c) :
    (∀ chunks succ fail, fail.length > maxFailed →
        queryLoop resp maxFailed chunks succ fail = (succ, fail, chunks, [])) ∧
    (∀ x ∈ ((queryLoop resp maxFailed (chunk_list ids cs) [] []).2.2.1).flatten,
        x ∉ (queryLoop resp maxFailed (chunk_list ids cs) [] []).1 ∧
        x ∉ (queryLoop resp maxFailed (chunk_list ids cs) [] []).2.1) := by
  constructor
  · intro chunks succ fail h
    cases chunks with
    | nil => simp [queryLoop]
    | cons c rest => simp [queryLoop, h]
  · have hflat := chunk_list_flatten ids cs
    have inv := queryLoop_invariant resp maxFailed hresp (chunk_list ids cs) [] []
      (by rw [hflat]; exact hN)
      (fun x _ => List.not_mem_nil x)
      (fun x _ => List.not_mem_nil x)
      (fun x hx => absurd hx (List.not_mem_nil x))
    exact inv.2.2.2

/-- C4 witness: three distinct ids in chunks of one against a remote
that always raises, with failure budget zero: the hypotheses hold and so
does the breaker conclusion (only the first chunk is attempted). -/
theorem C4_circuit_breaker_witness :
    (["ZTFa", "ZTFb", "ZTFc"] : List String).Nodup ∧
    ((∀ chunks succ fail, fail.length > 0 →
        queryLoop (fun _ => Except.error ()) 0 chunks succ fail =
          (succ, fail, chunks, [])) ∧
      (∀ x ∈ ((queryLoop (fun _ => Except.error ()) 0
            (chunk_list ["ZTFa", "ZTFb", "ZTFc"] 1) [] []).2.2.1).flatten,
        x ∉ (queryLoop (fun _ => Except.error ()) 0
            (chunk_list ["ZTFa", "ZTFb", "ZTFc"] 1) [] []).1 ∧
        x ∉ (queryLoop (fun _ => Except.error ()) 0
            (chunk_list ["ZTFa", "ZTFb", "ZTFc"] 1) [] []).2.1)) :=
  ⟨by decide,
    C4_circuit_breaker (fun _ => Except.error ()) 0 ["ZTFa", "ZTFb", "ZTFc"] 1
      (by decide) (fun c out h => nomatch h)⟩

/-- C8 counterexample: a missing client token makes
perform_lightcurve_queries raise ValueError (lasair.py lines 319-321)
instead of returning a partition, so not every failure mode returns the
partial partition to the caller. -/
theorem C8_counterexample :
    perform_lightcurve_queries none ["ZTF1"] 25 10 (fun _ => Except.ok []) =
      Except.error () := rfl

/-- C8 (amended): once a client token is present, the call never raises:
for every remote behaviour it returns the partial (succeeded, failed)
partition, and every issued chunk whose remote call raised has all of
its ids collected in the failed component. -/
theorem C8_partial_partition (tok : String) (ids : List String) (cs maxF : Nat)
    (resp : List String → Except Unit (List String)) :
    (∃ s f, perform_lightcurve_queries (some tok) ids cs maxF resp =
        Except.ok (s, f)) ∧
    (∀ c ∈ (queryLoop resp maxF (chunk_list ids cs) [] []).2.2.2,
      (∃ e, resp c = Except.error e) → ∀ x ∈ c,
        x ∈ (queryLoop resp maxF (chunk_list ids cs) [] []).2.1) :=
  ⟨⟨_, _, rfl⟩, (queryLoop_failed_accum resp maxF (chunk_list ids cs) [] []).2⟩

/-! ### Cached lightcurves and the per-target load step
(load_target_lightcurves) -/

/-- A lightcurve DataFrame as seen by load_target_lightcurves: its row
count, and its ra and dec columns, each either absent (none) or a list
of per-row optional values (a stored none is a null entry that dropna
removes).  Other columns do not bear on the claims. -/
structure Lightcurve where
  nrows : Nat
  ra_col : Option (List (Option ℚ))
  dec_col : Option (List (Option ℚ))
deriving DecidableEq, Repr

/-- Modelled from the spec: the tracked-object contract of spec section
6; the Target class itself (aas2rto/target.py) is not under src/.  A
target exposes mutable coordinates (none when the object lacks them, set
by update_coordinates), the updated flag, and the lasair lightcurve slot
of its per-broker data (target.get_target_data("lasair").lightcurve,
none when no data was ever installed; add_lightcurve replaces it). -/
structure Target where
  coord : Option (ℚ × ℚ)
  updated : Bool
  lasair_lightcurve : Option Lightcurve
deriving DecidableEq, Repr

/-- pandas Series.dropna: the non-null values of a column. -/
def dropna (col : List (Option ℚ)) : List ℚ := col.filterMap id

/-- numpy average of a list of values: the sum divided by the count;
raises ZeroDivisionError on an empty list. -/
def np_average (vals : List ℚ) : Except Unit ℚ :=
  if vals.length = 0 then Except.error ()
  else Except.ok ((vals.foldl (fun a b => a + b) 0) / (vals.length : ℚ))

/-- Outcome recorded by load_target_lightcurves for one object that had
a readable cache file and a tracked object. -/
inductive LoadOutcome
  | loaded
  | skipped
deriving DecidableEq, Repr

/-- The coordinate backfill and install step of load_target_lightcurves
(lasair.py lines 398-406).  When the target has no coordinates, the
column subscripts lightcurve["ra"] and lightcurve["dec"] at lines
399-400 sit outside the try block, so a missing column raises KeyError
out of the load; only the averaging and the update_coordinates call at
line 402 are inside the try, whose failures are logged and swallowed.
Afterwards add_lightcurve installs the incoming lightcurve and the
object counts as loaded. -/
def backfill_and_install (target : Target) (lightcurve : Lightcurve) :
    Except Unit (Target × LoadOutcome) :=
  match target.coord with
  | some _ =>
    Except.ok ({ target with lasair_lightcurve := some lightcurve },
      LoadOutcome.loaded)
  | none =>
    match lightcurve.ra_col, lightcurve.dec_col with
    | some racol, some deccol =>
      let t2 :=
        match np_average (dropna racol), np_average (dropna deccol) with
        | Except.ok ra, Except.ok dec => { target with coord := some (ra, dec) }
        | _, _ => target
      Except.ok ({ t2 with lasair_lightcurve := some lightcurve },
        LoadOutcome.loaded)
    | _, _ => Except.error ()

/-- The per-object body of load_target_lightcurves for an object whose
cache file yielded a lightcurve and which is present in target_lookup
(lasair.py lines 389-406): when existing data is present, the incoming
lightcurve is skipped unless it has strictly more rows, in which case
the updated flag is set before the backfill-and-install step runs; when
no data was ever installed, the incoming lightcurve goes straight to
backfill-and-install and the updated flag is left untouched (source
comment at line 395: not updated if there was no data to begin with). -/
def load_target_lightcurve_step (target : Target) (lightcurve : Lightcurve) :
    Except Unit (Target × LoadOutcome) :=
  match target.lasair_lightcurve with
  | some existing =>
    if lightcurve.nrows ≤ existing.nrows then
      Except.ok (target, LoadOutcome.skipped)
    else backfill_and_install { target with updated := true } lightcurve
  | none => backfill_and_install target lightcurve

/-- C1 counterexample: with an existing one-row lightcurve and a
distinct incoming one-row lightcurve (equal lengths), the load keeps the
existing rows, records the object as skipped and leaves the updated flag
false, contradicting the claim that equal length is accepted and marked
updated. -/
theorem C1_counterexample :
    load_target_lightcurve_step
        { coord := some (0, 0), updated := false,
          lasair_lightcurve := some { nrows := 1, ra_col := none, dec_col := none } }
        { nrows := 1, ra_col := some [], dec_col := none } =
      Except.ok
        ({ coord := some (0, 0), updated := false,
           lasair_lightcurve :=
             some { nrows := 1, ra_col := none, dec_col := none } },
          LoadOutcome.skipped) ∧
    ({ nrows := 1, ra_col := some [], dec_col := none } : Lightcurve) ≠
      { nrows := 1, ra_col := none, dec_col := none } := by
  exact ⟨rfl, by decide⟩

/-- C1 (amended): with an existing cached lightcurve, the incoming one
is accepted (and the updated flag set) exactly when it has strictly more
rows; at equal or smaller length the existing data and the updated flag
are kept unchanged and the object is recorded as skipped.  The
acceptance case is stated for a target that already has coordinates,
since for a coordinate-less target the backfill step can raise (see
C5). -/
theorem C1_merge_policy (target : Target) (existing incoming : Lightcurve)
    (hex : target.lasair_lightcurve = some existing) :
    (incoming.nrows ≤ existing.nrows →
      load_target_lightcurve_step target incoming =
        Except.ok (target, LoadOutcome.skipped)) ∧
    (existing.nrows < incoming.nrows → target.coord.isSome →
      load_target_lightcurve_step target incoming =
        Except.ok ({ target with
          updated := true,
          lasair_lightcurve := some incoming }, LoadOutcome.loaded)) := by
  constructor
  · intro hle
    simp [load_target_lightcurve_step, hex, hle]
  · intro hlt hcoord
    obtain ⟨p, hp⟩ := Option.isSome_iff_exists.mp hcoord
    simp [load_target_lightcurve_step, hex, Nat.not_le.mpr hlt,
      backfill_and_install, hp]

/-- Sample data exercising the merge policy. -/
def sampleExisting : Lightcurve := { nrows := 2, ra_col := none, dec_col := none }

def sampleIncoming : Lightcurve := { nrows := 3, ra_col := none, dec_col := none }

def sampleTarget : Target :=
  { coord := some (1, 2), updated := false,
    lasair_lightcurve := some sampleExisting }

/-- C1 witness: the merge policy instantiated on a two-row existing and
a three-row incoming lightcurve. -/
theorem C1_merge_policy_witness :
    sampleTarget.lasair_lightcurve = some sampleExisting ∧
    ((sampleIncoming.nrows ≤ sampleExisting.nrows →
        load_target_lightcurve_step sampleTarget sampleIncoming =
          Except.ok (sampleTarget, LoadOutcome.skipped)) ∧
      (sampleExisting.nrows < sampleIncoming.nrows →
        sampleTarget.coord.isSome →
        load_target_lightcurve_step sampleTarget sampleIncoming =
          Except.ok ({ sampleTarget with
            updated := true,
            lasair_lightcurve := some sampleIncoming }, LoadOutcome.loaded))) :=
  ⟨rfl, C1_merge_policy sampleTarget sampleExisting sampleIncoming rfl⟩

/-- C2 counterexample: a target with no existing lasair data receives a
zero-row incoming lightcurve; the rows are installed and the object
counts as loaded, but the updated flag stays false, contradicting the
claim that the first-ever data sets the updated flag. -/
theorem C2_counterexample :
    load_target_lightcurve_step
        { coord := some (0, 0), updated := false, lasair_lightcurve := none }
        { nrows := 0, ra_col := none, dec_col := none } =
      Except.ok
        ({ coord := some (0, 0), updated := false,
           lasair_lightcurve :=
             some { nrows := 0, ra_col := none, dec_col := none } },
          LoadOutcome.loaded) := rfl

/-- C2 (amended): for a tracked object with no existing lightcurve data
(stated for one whose coordinates are already set, the backfill of the
coordinate-less case being claim C5), the incoming lightcurve is
installed unconditionally, even with zero rows, and the object counts as
loaded, but the updated flag is left unchanged rather than set. -/
theorem C2_first_install (target : Target) (incoming : Lightcurve)
    (hnone : target.lasair_lightcurve = none) (hcoord : target.coord.isSome) :
    load_target_lightcurve_step target incoming =
      Except.ok ({ target with lasair_lightcurve := some incoming },
        LoadOutcome.loaded) := by
  obtain ⟨p, hp⟩ := Option.isSome_iff_exists.mp hcoord
  simp [load_target_lightcurve_step, hnone, backfill_and_install, hp]

/-- Sample target with coordinates but no lasair data yet. -/
def freshTarget : Target :=
  { coord := some (3, 4), updated := false, lasair_lightcurve := none }

/-- Sample zero-row lightcurve (the DataFrame produced for an empty
candidates list has no ra or dec column, lasair.py lines 57-59). -/
def emptyLightcurve : Lightcurve :=
  { nrows := 0, ra_col := none, dec_col := none }

/-- C2 witness: first-ever install of a zero-row lightcurve on a target
that has coordinates. -/
theorem C2_first_install_witness :
    freshTarget.lasair_lightcurve = none ∧ freshTarget.coord.isSome ∧
    load_target_lightcurve_step freshTarget emptyLightcurve =
      Except.ok ({ freshTarget with lasair_lightcurve := some emptyLightcurve },
        LoadOutcome.loaded) :=
  ⟨rfl, rfl, C2_first_install freshTarget emptyLightcurve rfl rfl⟩

/-- C5: the column subscripts of the coordinate backfill sit outside the
try block, so for a coordinate-less target an incoming lightcurve with
no ra or dec column (exactly what the code itself produces for an empty
candidates list) raises KeyError out of the load and the lightcurve is
not installed; by contrast a failure inside the try (here: averaging
columns whose non-null values are empty) is swallowed and the load
continues.  This contradicts the claim that any backfill failure,
including missing coordinate columns, is logged while the lightcurve is
still installed. -/
theorem C5_backfill_raises :
    load_target_lightcurve_step
        { coord := none, updated := false, lasair_lightcurve := none }
        { nrows := 0, ra_col := none, dec_col := none } = Except.error () ∧
    load_target_lightcurve_step
        { coord := none, updated := false, lasair_lightcurve := none }
        { nrows := 0, ra_col := some [], dec_col := some [] } =
      Except.ok
        ({ coord := none, updated := false,
           lasair_lightcurve :=
             some { nrows := 0, ra_col := some [], dec_col := some [] } },
          LoadOutcome.loaded) :=
  ⟨rfl, rfl⟩

/-! ### load_single_lightcurve -/

/-- The possible states of a per-object cache file, as distinguished by
the read path of load_single_lightcurve: the file may be missing, it may
make pandas raise EmptyDataError (a blank file), it may fail to read for
any other reason (for example a candid entry that the Int64 dtype of
line 422 cannot convert, which raises ValueError), or it may parse to a
lightcurve. -/
inductive CacheFile
  | missing
  | emptyData
  | unreadable
  | parsed (lightcurve : Lightcurve)
deriving DecidableEq, Repr

/-- Failure classes of pd.read_csv with the Int64 candid dtype (lasair.py
line 422) on an existing file. -/
inductive ReadFailure
  | emptyDataError
  | otherError
deriving DecidableEq, Repr

/-- Outcome of pd.read_csv on an existing cache file. -/
def read_csv : CacheFile → Except ReadFailure Lightcurve
  | CacheFile.missing => Except.error ReadFailure.otherError
  | CacheFile.emptyData => Except.error ReadFailure.emptyDataError
  | CacheFile.unreadable => Except.error ReadFailure.otherError
  | CacheFile.parsed lc => Except.ok lc

/-- load_single_lightcurve (lasair.py lines 416-427): returns None when
the cache file does not exist; otherwise reads it, catching only
pd.errors.EmptyDataError (line 423) and returning None in that case; any
other read failure propagates to the caller. -/
def load_single_lightcurve : CacheFile → Except Unit (Option Lightcurve)
  | CacheFile.missing => Except.ok none
  | f =>
    match read_csv f with
    | Except.error ReadFailure.emptyDataError => Except.ok none
    | Except.error ReadFailure.otherError => Except.error ()
    | Except.ok lc => Except.ok (some lc)

/-- C6 counterexample: an existing cache file that fails to read for any
reason other than EmptyDataError (for example a candid value the Int64
dtype cannot convert) makes load_single_lightcurve raise to its caller
instead of returning an absent value. -/
theorem C6_counterexample :
    load_single_lightcurve CacheFile.unreadable = Except.error () := rfl

/-- C6 (amended): load_single_lightcurve returns an absent value exactly
when the cache file is missing or blank (pandas EmptyDataError, the only
caught exception); a file that parses is returned as present, and every
other malformation raises to the caller. -/
theorem C6_absent_policy (f : CacheFile) :
    (load_single_lightcurve f = Except.ok none ↔
      f = CacheFile.missing ∨ f = CacheFile.emptyData) ∧
    (∀ lc, load_single_lightcurve f = Except.ok (some lc) ↔
      f = CacheFile.parsed lc) ∧
    (load_single_lightcurve f = Except.error () ↔ f = CacheFile.unreadable) := by
  cases f <;> simp [load_single_lightcurve, read_csv]

/-! ### process_alerts -/

/-- An alert as consumed by process_alerts and _get_alert_timestamp: the
fields those functions inspect, each optional because alerts are raw
JSON mappings (none models a missing key). -/
structure Alert where
  objectId : Option String
  candid : Option Int
  timestamp : Option String
  utc : Option String
  mjdmax : Option ℚ
  jdmax : Option ℚ
deriving DecidableEq, Repr

/-- The normalized timestamp value computed by _get_alert_timestamp,
tagged by the fallback source that produced it. -/
inductive AlertTimestamp
  | fromTimestamp (s : String)
  | fromUtc (s : String)
  | fromMjd (v : ℚ)
  | fromJd (v : ℚ)
  | fromRef
deriving DecidableEq, Repr

/-- _get_alert_timestamp (lasair.py lines 122-143): the subscript
alert["objectId"] at line 125 raises KeyError when that key is missing;
otherwise the timestamp comes from the first present field in the
fallback order timestamp, UTC, mjdmax, jdmax, with the caller reference
time as final fallback.  Failures of the Time constructor itself are
caught at line 139 and also fall back to the reference time; the model
treats the constructors as total since no claim depends on unparsable
timestamp strings. -/
def get_alert_timestamp (alert : Alert) : Except Unit AlertTimestamp :=
  match alert.objectId with
  | none => Except.error ()
  | some _ =>
    match alert.timestamp with
    | some s => Except.ok (AlertTimestamp.fromTimestamp s)
    | none =>
      match alert.utc with
      | some s => Except.ok (AlertTimestamp.fromUtc s)
      | none =>
        match alert.mjdmax with
        | some v => Except.ok (AlertTimestamp.fromMjd v)
        | none =>
          match alert.jdmax with
          | some v => Except.ok (AlertTimestamp.fromJd v)
          | none => Except.ok AlertTimestamp.fromRef

/-- One iteration of the process_alerts loop (lasair.py lines 266-275):
the alert timestamp is computed first (its objectId subscript can
raise); then, when save_alerts is set, the alert is persisted under the
key pair (objectId, candid) built by get_alert_file(objectId,
alert["candid"]) at line 273 — the candid subscript raises KeyError when
the alert has no candid key, before any file for this alert is
written.  The returned option is the file key written for this alert. -/
def process_alert_step (save_alerts : Bool) (alert : Alert) :
    Except Unit (AlertTimestamp × Option (Option String × Int)) :=
  match get_alert_timestamp alert with
  | Except.error e => Except.error e
  | Except.ok ts =>
    if save_alerts then
      match alert.candid with
      | none => Except.error ()
      | some c => Except.ok (ts, some (alert.objectId, c))
    else Except.ok (ts, none)

/-- process_alerts (lasair.py lines 263-276) over a list of alerts,
instrumented with the list of alert files written: the loop stops at the
first raised exception, and the files already written stay written. -/
def process_alerts (save_alerts : Bool) :
    List Alert → List (Option String × Int) × Except Unit Unit
  | [] => ([], Except.ok ())
  | alert :: rest =>
    match process_alert_step save_alerts alert with
    | Except.error e => ([], Except.error e)
    | Except.ok (_, w) =>
      let r := process_alerts save_alerts rest
      (w.toList ++ r.1, r.2)

lemma get_alert_timestamp_ok (alert : Alert) (h : alert.objectId.isSome) :
    ∃ ts, get_alert_timestamp alert = Except.ok ts := by
  obtain ⟨o, ho⟩ := Option.isSome_iff_exists.mp h
  simp only [get_alert_timestamp, ho]
  cases alert.timestamp <;> cases alert.utc <;> cases alert.mjdmax <;>
    cases alert.jdmax <;> exact ⟨_, rfl⟩

/-- C10: with save_alerts enabled, an alert carrying an objectId but no
candid key makes process_alerts raise KeyError at the subscript
alert["candid"], and no file is persisted for that alert: it is neither
written under a default candidate identifier nor skipped. -/
theorem C10_candid_required (alert : Alert) (rest : List Alert)
    (hobj : alert.objectId.isSome) (hcand : alert.candid = none) :
    process_alerts true (alert :: rest) = ([], Except.error ()) := by
  obtain ⟨ts, hts⟩ := get_alert_timestamp_ok alert hobj
  simp [process_alerts, process_alert_step, hts, hcand]

/-- Sample alert holding only an objectId. -/
def alertNoCandid : Alert :=
  { objectId := some "ZTF1", candid := none, timestamp := none,
    utc := none, mjdmax := none, jdmax := none }

/-- C10 witness: processing the objectId-only alert with saving enabled
raises and writes nothing. -/
theorem C10_candid_required_witness :
    alertNoCandid.objectId.isSome = true ∧ alertNoCandid.candid = none ∧
    process_alerts true [alertNoCandid] = ([], Except.error ()) :=
  ⟨rfl, rfl, C10_candid_required alertNoCandid [] rfl rfl⟩

end Aas2rto
